import Mathlib

/-!
Shallow embedding of `src/gensim/corpora/indexedcorpus.py` (class
`IndexedCorpus`): an indexed store over a sequentially written corpus file.

The Python class keeps, per handle, a backing file name, an optional loaded
offset index (`self.index`, set to `None` when loading fails) and a lazily
cached length (`self.length`).  External collaborators are modelled as data:

* the Format Adapter is the pair of the `save_corpus` class method (a function
  from the call it receives to an optional offset list, `none` standing for
  Python `None`, i.e. "format cannot supply offsets") and the `docbyoffset`
  method (a function from offsets to documents);
* Blob Persistence (`utils.pickle` / `utils.unpickle`) is modelled as a
  function from file names to `Except LoadError (List Off)`; `serialize`
  records the pickle it performs as an event instead of touching a file.

Exceptions become an explicit error type; `serialize` returns, next to its
`Except` outcome, the trace of externally visible effects it performed, so
that "the adapter is never invoked" and "no index file is written" are
statable.
-/

namespace IndexedCorpusModel

/-- The exceptions the Python code can raise, by the `raise` sites of
`indexedcorpus.py` (plus `IndexError` raised inside `self.index[docno]`). -/
inductive CorpusError where
  /-- `ValueError` from `serialize` when `fname == corpus.fname`. -/
  | valueError
  /-- `NotImplementedError` from `serialize` when `save_corpus` returns `None`. -/
  | notImplementedError
  /-- `RuntimeError` from `__getitem__` when `self.index is None`. -/
  | runtimeError
  /-- `IndexError` from `self.index[docno]` when `docno` is out of bounds. -/
  | indexError
deriving DecidableEq, Repr

/-- The ways `utils.unpickle(index_fname)` can fail inside `__init__`;
the bare `except:` there catches every one of them alike. -/
inductive LoadError where
  | missingFile
  | corruptBlob
  | typeMismatch
deriving DecidableEq, Repr

/-- A source document stream, as `serialize` receives it: its documents in
stream order, the file it is in fact backed by (if any), and the value of its
`fname` attribute when the object exposes one (`hasattr(corpus, 'fname')`).
The Python guard can only observe `fnameAttr`; `backingPath` records the
semantic fact, which for ordinary corpus objects coincides with the
attribute but need not exist as an attribute at all. -/
structure SourceStream (Doc : Type) where
  docs : List Doc
  backingPath : Option String
  fnameAttr : Option String

/-- One call to the Format Adapter's `save_corpus`: the keyword arguments
`labels` and `progress_cnt` are `some` exactly when the Python call passes
them, `id2word` is always passed positionally. -/
structure SaveCall (Doc M L : Type) where
  fname : String
  corpus : List Doc
  id2word : Option M
  labels : Option L
  progress_cnt : Option Nat

/-- Externally visible effects of `serialize`, in order of occurrence. -/
inductive SerializeEvent (Doc M L Off : Type) where
  /-- The one call `serialize` makes to `serializer.save_corpus`. -/
  | adapterWrite (call : SaveCall Doc M L)
  /-- `utils.pickle(offsets, index_fname)`: the offset index persisted. -/
  | pickleIndex (index_fname : String) (offsets : List Off)

/-- The state of an `IndexedCorpus` handle after `__init__`:
`index` is `self.index` (`none` = Python `None`, the unindexed state),
`length` is the cached `self.length`, `stream` is the document sequence the
handle iterates over, and `docbyoffset` is the Format Adapter's
document-at-byte-offset operation supplied by the subclass. -/
structure IndexedCorpus (Off Doc : Type) where
  fname : String
  stream : List Doc
  docbyoffset : Off → Doc
  index : Option (List Off)
  length : Option Nat

/-- `IndexedCorpus.__init__(fname, index_fname=None)`: compute the default
index file name, try to unpickle the index from it, and on any failure fall
back to `self.index = None`; `self.length` always starts out `None`.
`load` stands for `utils.unpickle` applied by Blob Persistence to a path. -/
def openCorpus {Off Doc : Type} (fname : String) (index_fname : Option String)
    (load : String → Except LoadError (List Off))
    (stream : List Doc) (dbo : Off → Doc) : IndexedCorpus Off Doc :=
  let ifname := index_fname.getD (fname ++ ".index")
  { fname := fname
    stream := stream
    docbyoffset := dbo
    index := match load ifname with
             | .ok idx => some idx
             | .error _ => none
    length := none }

/-- `IndexedCorpus.serialize(fname, corpus, id2word, index_fname,
progress_cnt, labels)`.  Returns the outcome together with the trace of
effects: the guard aborts before any effect; an adapter answer of `None`
aborts after the write call but before the index is pickled; on success the
offsets are pickled to the (defaulted) index file name. -/
def serialize {Doc M L Off : Type}
    (save_corpus : SaveCall Doc M L → Option (List Off))
    (fname : String) (corpus : SourceStream Doc)
    (id2word : Option M) (index_fname : Option String)
    (progress_cnt : Option Nat) (labels : Option L) :
    Except CorpusError Unit × List (SerializeEvent Doc M L Off) :=
  if corpus.fnameAttr = some fname then
    (.error .valueError, [])
  else
    let ifname := index_fname.getD (fname ++ ".index")
    let call : SaveCall Doc M L :=
      match progress_cnt, labels with
      | some pc, some lb => ⟨fname, corpus.docs, id2word, some lb, some pc⟩
      | some pc, none    => ⟨fname, corpus.docs, id2word, none, some pc⟩
      | none,    some lb => ⟨fname, corpus.docs, id2word, some lb, none⟩
      | none,    none    => ⟨fname, corpus.docs, id2word, none, none⟩
    match save_corpus call with
    | none => (.error .notImplementedError, [.adapterWrite call])
    | some offsets =>
        (.ok (), [.adapterWrite call, .pickleIndex ifname offsets])

/-- `IndexedCorpus.__len__`: if an index is loaded return its length; else
return the cached length, computing it by one full pass over the stream
(`sum(1 for doc in self)`) if it is not cached yet.  The result carries the
updated handle state and the number of full scans this call performed. -/
def corpusLen {Off Doc : Type} (c : IndexedCorpus Off Doc) :
    Nat × IndexedCorpus Off Doc × Nat :=
  match c.index with
  | some idx => (idx.length, c, 0)
  | none =>
      match c.length with
      | some n => (n, c, 0)
      | none => (c.stream.length, { c with length := some c.stream.length }, 1)

/-- CPython list subscription `l[i]` for an integer `i`: indices in
`[0, len l)` are taken directly, indices in `[-len l, 0)` count from the
end, anything else is an `IndexError` (here `none`). -/
def pyListGet {α : Type} (l : List α) (i : Int) : Option α :=
  if 0 ≤ i then l[i.toNat]?
  else if -(l.length : Int) ≤ i then l[((l.length : Int) + i).toNat]?
  else none

/-- `IndexedCorpus.__getitem__(docno)`: `RuntimeError` without an index,
otherwise `self.docbyoffset(self.index[docno])` with Python list
subscription on the index. -/
def getItem {Off Doc : Type} (c : IndexedCorpus Off Doc) (docno : Int) :
    Except CorpusError Doc :=
  match c.index with
  | none => .error .runtimeError
  | some idx =>
      match pyListGet idx docno with
      | none => .error .indexError
      | some off => .ok (c.docbyoffset off)

/-! ### Sample handles used by the closed witness statements -/

/-- An indexed handle: two documents, offsets `[0, 5]`, adapter decodes the
document at offset `o` as `o + 10`. -/
def sampleIndexed : IndexedCorpus Nat Nat :=
  ⟨"c.dat", [3, 4], fun o => o + 10, some [0, 5], none⟩

/-- The same handle in unindexed state (index load failed). -/
def sampleUnindexed : IndexedCorpus Nat Nat :=
  ⟨"c.dat", [3, 4], fun o => o + 10, none, none⟩

/-! ### Helper lemmas about CPython list subscription -/

/-- `l[i]` raises `IndexError` exactly when `i` is outside `[-len l, len l)`. -/
theorem pyListGet_eq_none_iff {α : Type} (l : List α) (i : Int) :
    pyListGet l i = none ↔ (i < -(l.length : Int) ∨ (l.length : Int) ≤ i) := by
  unfold pyListGet
  by_cases h0 : 0 ≤ i
  · simp only [if_pos h0, List.getElem?_eq_none_iff]
    omega
  · by_cases h1 : -(l.length : Int) ≤ i
    · simp only [if_neg h0, if_pos h1, List.getElem?_eq_none_iff]
      omega
    · simp only [if_neg h0, if_neg h1]
      exact iff_of_true trivial (by omega)

/-- A non-negative in-bounds subscript returns the element at that position. -/
theorem pyListGet_nonneg {α : Type} (l : List α) (i : Nat) (hi : i < l.length) :
    pyListGet l (i : Int) = some (l.get ⟨i, hi⟩) := by
  unfold pyListGet
  rw [if_pos (Int.ofNat_nonneg i)]
  simp [List.getElem?_eq_getElem, hi]

/-- A negative subscript in `[-len l, 0)` returns the element `len l + i`
positions from the start. -/
theorem pyListGet_negIdx {α : Type} (l : List α) (d : Int)
    (h1 : -(l.length : Int) ≤ d) (h2 : d < 0) :
    ∃ hlt : ((l.length : Int) + d).toNat < l.length,
      pyListGet l d = some (l.get ⟨((l.length : Int) + d).toNat, hlt⟩) := by
  have h0 : ¬ 0 ≤ d := by omega
  have hlt : ((l.length : Int) + d).toNat < l.length := by omega
  refine ⟨hlt, ?_⟩
  unfold pyListGet
  rw [if_neg h0, if_pos h1]
  simp [List.getElem?_eq_getElem, hlt]

/-! ### Helper lemmas about `serialize` -/

/-- When the guard does not fire, the first effect of `serialize` is the one
adapter call, whose keyword arguments are exactly the ones supplied. -/
theorem serialize_head_adapterWrite {Doc M L Off : Type}
    (save_corpus : SaveCall Doc M L → Option (List Off))
    (fname : String) (corpus : SourceStream Doc) (id2word : Option M)
    (index_fname : Option String) (progress_cnt : Option Nat) (labels : Option L)
    (hguard : corpus.fnameAttr ≠ some fname) :
    (serialize save_corpus fname corpus id2word index_fname
        progress_cnt labels).2.head? =
      some (.adapterWrite ⟨fname, corpus.docs, id2word, labels, progress_cnt⟩) := by
  rcases progress_cnt with _ | pc <;> rcases labels with _ | lb <;>
    simp only [serialize, if_neg hguard] <;>
    rcases save_corpus ⟨fname, corpus.docs, id2word, _, _⟩ with _ | offs <;> rfl

/-- When the guard does not fire, `serialize` never reports `ValueError`. -/
theorem serialize_fst_ne_valueError {Doc M L Off : Type}
    (save_corpus : SaveCall Doc M L → Option (List Off))
    (fname : String) (corpus : SourceStream Doc) (id2word : Option M)
    (index_fname : Option String) (progress_cnt : Option Nat) (labels : Option L)
    (hguard : corpus.fnameAttr ≠ some fname) :
    (serialize save_corpus fname corpus id2word index_fname
        progress_cnt labels).1 ≠ .error .valueError := by
  rcases progress_cnt with _ | pc <;> rcases labels with _ | lb <;>
    simp only [serialize, if_neg hguard] <;>
    rcases save_corpus ⟨fname, corpus.docs, id2word, _, _⟩ with _ | offs <;> simp

/-! ### The claims -/

/-- C3: on a handle in unindexed state (`self.index is None`), `get` raises
the "no index" `RuntimeError` for every ordinal; it never falls back to a
sequential scan. -/
theorem getItem_unindexed_raises {Off Doc : Type} (c : IndexedCorpus Off Doc)
    (h : c.index = none) (docno : Int) :
    getItem c docno = .error .runtimeError := by
  simp [getItem, h]

/-- C3 witness: the sample unindexed handle raises on ordinals 0 and -1. -/
theorem getItem_unindexed_raises_witness :
    getItem sampleUnindexed 0 = .error .runtimeError ∧
    getItem sampleUnindexed (-1) = .error .runtimeError :=
  ⟨getItem_unindexed_raises sampleUnindexed rfl 0,
   getItem_unindexed_raises sampleUnindexed rfl (-1)⟩

/-- C4: `open` is total (the bare `except:` swallows every load failure):
whatever Blob Persistence answers for the index file, the handle is
constructed — unindexed on any load error, indexed with the loaded offsets on
success — and the length cache starts empty. -/
theorem open_swallows_load_failures {Off Doc : Type} (fname : String)
    (index_fname : Option String)
    (load : String → Except LoadError (List Off))
    (stream : List Doc) (dbo : Off → Doc) :
    (openCorpus fname index_fname load stream dbo).length = none ∧
    (∀ e, load (index_fname.getD (fname ++ ".index")) = .error e →
      (openCorpus fname index_fname load stream dbo).index = none) ∧
    (∀ idx, load (index_fname.getD (fname ++ ".index")) = .ok idx →
      (openCorpus fname index_fname load stream dbo).index = some idx) := by
  refine ⟨rfl, ?_, ?_⟩ <;> intro x hx <;> simp [openCorpus, hx]

/-- C4 witness: a failing load yields an unindexed handle, a succeeding load
an indexed one, at every failure kind. -/
theorem open_swallows_load_failures_witness :
    ((openCorpus "c.dat" none
        (fun _ => (.error .missingFile : Except LoadError (List Nat)))
        [3] (fun o : Nat => o)).index = none) ∧
    ((openCorpus "c.dat" none
        (fun _ => (.error .corruptBlob : Except LoadError (List Nat)))
        [3] (fun o : Nat => o)).index = none) ∧
    ((openCorpus "c.dat" none
        (fun _ => (.error .typeMismatch : Except LoadError (List Nat)))
        [3] (fun o : Nat => o)).index = none) ∧
    ((openCorpus "c.dat" none
        (fun _ => (.ok [7] : Except LoadError (List Nat)))
        [3] (fun o : Nat => o)).index = some [7]) :=
  ⟨(open_swallows_load_failures "c.dat" none _ [3] _).2.1 .missingFile rfl,
   (open_swallows_load_failures "c.dat" none _ [3] _).2.1 .corruptBlob rfl,
   (open_swallows_load_failures "c.dat" none _ [3] _).2.1 .typeMismatch rfl,
   (open_swallows_load_failures "c.dat" none _ [3] _).2.2 [7] rfl⟩

/-- C5: `len` answers from the index when one is loaded (no scan, state
unchanged); otherwise the first call scans the stream once and caches the
count, and calls on the cached state answer from the cache with no scan. -/
theorem corpusLen_spec {Off Doc : Type} (c : IndexedCorpus Off Doc) :
    (∀ idx, c.index = some idx → corpusLen c = (idx.length, c, 0)) ∧
    (∀ n, c.index = none → c.length = some n → corpusLen c = (n, c, 0)) ∧
    (c.index = none → c.length = none →
      corpusLen c =
        (c.stream.length, { c with length := some c.stream.length }, 1) ∧
      corpusLen { c with length := some c.stream.length } =
        (c.stream.length, { c with length := some c.stream.length }, 0)) := by
  refine ⟨?_, ?_, ?_⟩
  · intro idx h
    simp [corpusLen, h]
  · intro n h1 h2
    simp [corpusLen, h1, h2]
  · intro h1 h2
    constructor <;> simp [corpusLen, h1, h2]

/-- C5 witness: on the indexed sample no scan happens; on the unindexed
sample the first call scans once and caches 2, the second call scans no
more. -/
theorem corpusLen_spec_witness :
    corpusLen sampleIndexed = (2, sampleIndexed, 0) ∧
    corpusLen sampleUnindexed =
      (2, { sampleUnindexed with length := some 2 }, 1) ∧
    corpusLen { sampleUnindexed with length := some 2 } =
      (2, { sampleUnindexed with length := some 2 }, 0) :=
  ⟨(corpusLen_spec sampleIndexed).1 [0, 5] rfl,
   ((corpusLen_spec sampleUnindexed).2.2 rfl rfl).1,
   ((corpusLen_spec sampleUnindexed).2.2 rfl rfl).2⟩

/-- C2 counterexample: on the indexed sample with N = 2, the ordinal -1 lies
outside `[0, 2)`, yet `get (-1)` does not raise the out-of-range error — it
returns the document decoded at the last offset (Python negative indexing),
refuting "raises out-of-range iff the ordinal is outside [0, N)". -/
theorem getItem_out_of_claimed_range_counterexample :
    ((-1 : Int) < 0 ∨ (2 : Int) ≤ -1) ∧
    getItem sampleIndexed (-1) = .ok 15 :=
  ⟨Or.inl (by decide), rfl⟩

/-- C2 (amended): on an indexed handle, `get` raises the out-of-range
`IndexError` iff the ordinal is outside `[-N, N)` where N is the index
length; for an ordinal in `[0, N)` it returns exactly the adapter's
document-at-offset operation applied to `index[ordinal]`. -/
theorem getItem_indexed_spec {Off Doc : Type} (c : IndexedCorpus Off Doc)
    (idx : List Off) (h : c.index = some idx) (docno : Int) :
    (getItem c docno = .error .indexError ↔
      (docno < -(idx.length : Int) ∨ (idx.length : Int) ≤ docno)) ∧
    (∀ i : Nat, ∀ hi : i < idx.length, docno = (i : Int) →
      getItem c docno = .ok (c.docbyoffset (idx.get ⟨i, hi⟩))) := by
  constructor
  · rcases hpy : pyListGet idx docno with _ | off
    · simp only [getItem, h, hpy]
      exact iff_of_true trivial ((pyListGet_eq_none_iff idx docno).mp hpy)
    · simp only [getItem, h, hpy]
      constructor
      · intro hcontra
        exact absurd hcontra (by simp)
      · intro hrange
        have : pyListGet idx docno = none :=
          (pyListGet_eq_none_iff idx docno).mpr hrange
        simp [hpy] at this
  · intro i hi hd
    subst hd
    simp only [getItem, h, pyListGet_nonneg idx i hi]

/-- C2 witness: on the indexed sample (N = 2), ordinal 3 raises the
out-of-range error and ordinal 1 returns the document at offset
`index[1] = 5`. -/
theorem getItem_indexed_spec_witness :
    getItem sampleIndexed 3 = .error .indexError ∧
    getItem sampleIndexed 1 = .ok 15 :=
  ⟨((getItem_indexed_spec sampleIndexed [0, 5] rfl 3).1).mpr (by decide),
   (getItem_indexed_spec sampleIndexed [0, 5] rfl 1).2 1 (by decide) rfl⟩

/-- C9: on an indexed handle with N documents and a negative ordinal `d` with
`-N ≤ d ≤ -1`, `get d` does not raise the out-of-range error: it returns the
adapter's document-at-offset operation applied to `index[N + d]`. -/
theorem getItem_negative_indexing {Off Doc : Type} (c : IndexedCorpus Off Doc)
    (idx : List Off) (h : c.index = some idx) (d : Int)
    (h1 : -(idx.length : Int) ≤ d) (h2 : d ≤ -1) :
    getItem c d ≠ .error .indexError ∧
    ∃ hlt : ((idx.length : Int) + d).toNat < idx.length,
      getItem c d =
        .ok (c.docbyoffset (idx.get ⟨((idx.length : Int) + d).toNat, hlt⟩)) := by
  obtain ⟨hlt, hpy⟩ := pyListGet_negIdx idx d h1 (by omega)
  refine ⟨?_, hlt, ?_⟩ <;> simp [getItem, h, hpy]

/-- C9 witness: on the indexed sample (N = 2), ordinal -2 maps to position 0
and returns the document at offset `index[0] = 0`. -/
theorem getItem_negative_indexing_witness :
    getItem sampleIndexed (-2) ≠ .error .indexError ∧
    ∃ hlt : (((([0, 5] : List Nat).length : Int)) + -2).toNat <
        ([0, 5] : List Nat).length,
      getItem sampleIndexed (-2) =
        .ok (sampleIndexed.docbyoffset (([0, 5] : List Nat).get
          ⟨((([0, 5] : List Nat).length : Int) + -2).toNat, hlt⟩)) :=
  getItem_negative_indexing sampleIndexed [0, 5] rfl (-2) (by decide) (by decide)

/-- C6 counterexample: a source stream in fact backed by "x.dat" but exposing
no `fname` attribute.  `serialize` to target "x.dat" does not raise the
configuration error: it invokes the adapter and writes the index, refuting
"for every source stream whose backing path equals the target path,
serialize raises a ConfigurationError and writes nothing". -/
theorem serialize_backed_stream_counterexample :
    ((⟨[3], some "x.dat", none⟩ : SourceStream Nat).backingPath
        = some "x.dat") ∧
    serialize (fun _ => some [0]) "x.dat"
        (⟨[3], some "x.dat", none⟩ : SourceStream Nat)
        (none : Option Nat) none none (none : Option Nat) =
      (.ok (), [.adapterWrite ⟨"x.dat", [3], none, none, none⟩,
                .pickleIndex "x.dat.index" [0]]) :=
  ⟨rfl, rfl⟩

/-- C6 (amended): for every source stream that exposes an `fname` attribute
equal to the target path, `serialize` raises the configuration `ValueError`
immediately and performs no effect: the adapter is never invoked and no
index is written. -/
theorem serialize_fname_guard {Doc M L Off : Type}
    (save_corpus : SaveCall Doc M L → Option (List Off))
    (fname : String) (corpus : SourceStream Doc) (id2word : Option M)
    (index_fname : Option String) (progress_cnt : Option Nat)
    (labels : Option L)
    (h : corpus.fnameAttr = some fname) :
    serialize save_corpus fname corpus id2word index_fname
        progress_cnt labels = (.error .valueError, []) := by
  simp [serialize, h]

/-- C6 witness: a stream whose `fname` attribute is the target "x.dat"
aborts with `ValueError` and an empty effect trace. -/
theorem serialize_fname_guard_witness :
    serialize (fun _ => some [0]) "x.dat"
        (⟨[3], some "x.dat", some "x.dat"⟩ : SourceStream Nat)
        (none : Option Nat) none none (none : Option Nat) =
      ((.error .valueError : Except CorpusError Unit), []) :=
  serialize_fname_guard _ _ _ _ _ _ _ rfl

/-- C7: when the adapter's write returns `None` (format cannot supply
per-document offsets), `serialize` raises `NotImplementedError` and its
trace holds the adapter call only — no index is pickled. -/
theorem serialize_unsupported_no_index {Doc M L Off : Type}
    (save_corpus : SaveCall Doc M L → Option (List Off))
    (fname : String) (corpus : SourceStream Doc) (id2word : Option M)
    (index_fname : Option String) (progress_cnt : Option Nat)
    (labels : Option L)
    (hguard : corpus.fnameAttr ≠ some fname)
    (hns : save_corpus ⟨fname, corpus.docs, id2word, labels, progress_cnt⟩
        = none) :
    serialize save_corpus fname corpus id2word index_fname
        progress_cnt labels =
      (.error .notImplementedError,
       [.adapterWrite ⟨fname, corpus.docs, id2word, labels, progress_cnt⟩]) := by
  rcases progress_cnt with _ | pc <;> rcases labels with _ | lb <;>
    simp only [serialize, if_neg hguard, hns]

/-- C7 witness: an adapter that answers `None` makes `serialize` fail with
`NotImplementedError` after the single write call, with no pickle event. -/
theorem serialize_unsupported_no_index_witness :
    serialize (fun _ => (none : Option (List Nat))) "t.dat"
        (⟨[3], none, none⟩ : SourceStream Nat)
        (none : Option Nat) none none (none : Option Nat) =
      (.error .notImplementedError,
       [.adapterWrite ⟨"t.dat", [3], none, none, none⟩]) :=
  serialize_unsupported_no_index _ _ _ _ _ _ _ (by simp) rfl

/-- C8: past the guard, `serialize` makes exactly one adapter call, first in
its trace; `id2word` is always passed through, while `labels` and
`progress_cnt` appear in the call exactly when the caller supplied them
(all four presence combinations, since both options are arbitrary here). -/
theorem serialize_passes_options {Doc M L Off : Type}
    (save_corpus : SaveCall Doc M L → Option (List Off))
    (fname : String) (corpus : SourceStream Doc) (id2word : Option M)
    (index_fname : Option String) (progress_cnt : Option Nat)
    (labels : Option L)
    (hguard : corpus.fnameAttr ≠ some fname) :
    (serialize save_corpus fname corpus id2word index_fname
        progress_cnt labels).2.head? =
      some (.adapterWrite ⟨fname, corpus.docs, id2word, labels,
        progress_cnt⟩) :=
  serialize_head_adapterWrite save_corpus fname corpus id2word index_fname
    progress_cnt labels hguard

/-- C8 witness: with both options supplied they both reach the adapter call
(and with them absent the call of the C7 witness shows them absent). -/
theorem serialize_passes_options_witness :
    (serialize (fun _ => (some [0] : Option (List Nat))) "t.dat"
        (⟨[3], none, none⟩ : SourceStream Nat)
        (some 1) none (some 100) (some 2)).2.head? =
      some (.adapterWrite ⟨"t.dat", [3], some 1, some 2, some 100⟩) :=
  serialize_passes_options _ _ _ _ _ _ _ (by simp)

/-- C10: the configuration `ValueError` fires iff the stream exposes an
`fname` attribute equal to the target path; a stream lacking the attribute
proceeds to the adapter write even when the target is in fact the file
backing it. -/
theorem serialize_guard_iff_fname_attr {Doc M L Off : Type}
    (save_corpus : SaveCall Doc M L → Option (List Off))
    (fname : String) (corpus : SourceStream Doc) (id2word : Option M)
    (index_fname : Option String) (progress_cnt : Option Nat)
    (labels : Option L) :
    ((serialize save_corpus fname corpus id2word index_fname
        progress_cnt labels).1 = .error .valueError ↔
      corpus.fnameAttr = some fname) ∧
    (corpus.fnameAttr = none → corpus.backingPath = some fname →
      (serialize save_corpus fname corpus id2word index_fname
          progress_cnt labels).2.head? =
        some (.adapterWrite ⟨fname, corpus.docs, id2word, labels,
          progress_cnt⟩)) := by
  by_cases hg : corpus.fnameAttr = some fname
  · refine ⟨iff_of_true ?_ hg, ?_⟩
    · simp [serialize, hg]
    · intro hnone _
      rw [hnone] at hg
      exact absurd hg (by simp)
  · exact ⟨iff_of_false (serialize_fst_ne_valueError save_corpus fname corpus
        id2word index_fname progress_cnt labels hg) hg,
      fun _ _ => serialize_head_adapterWrite save_corpus fname corpus id2word
        index_fname progress_cnt labels hg⟩

/-- C10 witness: with the attribute present and equal the guard fires; on a
stream backed by the target but without the attribute, serialize proceeds to
the adapter write. -/
theorem serialize_guard_iff_fname_attr_witness :
    ((serialize (fun _ => (some [0] : Option (List Nat))) "x.dat"
        (⟨[3], some "x.dat", some "x.dat"⟩ : SourceStream Nat)
        (none : Option Nat) none none (none : Option Nat)).1 =
      .error .valueError) ∧
    ((serialize (fun _ => (some [0] : Option (List Nat))) "x.dat"
        (⟨[3], some "x.dat", none⟩ : SourceStream Nat)
        (none : Option Nat) none none (none : Option Nat)).2.head? =
      some (.adapterWrite ⟨"x.dat", [3], none, none, none⟩)) :=
  ⟨(serialize_guard_iff_fname_attr _ "x.dat"
      (⟨[3], some "x.dat", some "x.dat"⟩ : SourceStream Nat)
      _ none _ _).1.mpr rfl,
   (serialize_guard_iff_fname_attr _ "x.dat"
      (⟨[3], some "x.dat", none⟩ : SourceStream Nat)
      _ none _ _).2 rfl rfl⟩

/-- C1: round trip.  For a stream of N documents and an adapter whose write
returns one offset per document, a successful `serialize` pickles exactly
those offsets to the index file, and a handle opened with that index in
place answers `len` with N, performing no scan and leaving the handle
unchanged. -/
theorem serialize_open_roundtrip_length {Doc M L Off : Type}
    (save_corpus : SaveCall Doc M L → Option (List Off))
    (fname : String) (corpus : SourceStream Doc)
    (load : String → Except LoadError (List Off))
    (dbo : Off → Doc) (offsets : List Off)
    (hguard : corpus.fnameAttr ≠ some fname)
    (hwrite : save_corpus ⟨fname, corpus.docs, none, none, none⟩
        = some offsets)
    (hperdoc : offsets.length = corpus.docs.length)
    (hload : load (fname ++ ".index") = .ok offsets) :
    serialize save_corpus fname corpus none none none none =
      (.ok (), [.adapterWrite ⟨fname, corpus.docs, none, none, none⟩,
                .pickleIndex (fname ++ ".index") offsets]) ∧
    corpusLen (openCorpus fname none load corpus.docs dbo) =
      (corpus.docs.length,
       openCorpus fname none load corpus.docs dbo, 0) := by
  constructor
  · simp only [serialize, if_neg hguard, hwrite, Option.getD]
  · simp [corpusLen, openCorpus, hload, hperdoc]

/-- C1 witness: two documents, offsets `[0, 17]`; after serialize, the
reopened handle reports length 2 with zero scans. -/
theorem serialize_open_roundtrip_length_witness :
    serialize (fun _ => (some [0, 17] : Option (List Nat))) "test.dat"
        (⟨[5, 9], some "orig.dat", some "orig.dat"⟩ : SourceStream Nat)
        (none : Option Nat) none none (none : Option Nat) =
      (.ok (), [.adapterWrite ⟨"test.dat", [5, 9], none, none, none⟩,
                .pickleIndex "test.dat.index" [0, 17]]) ∧
    corpusLen (openCorpus "test.dat" none
        (fun _ => (.ok [0, 17] : Except LoadError (List Nat)))
        [5, 9] (fun o => o + 1)) =
      (2, openCorpus "test.dat" none
        (fun _ => (.ok [0, 17] : Except LoadError (List Nat)))
        [5, 9] (fun o => o + 1), 0) :=
  serialize_open_roundtrip_length _ "test.dat"
    (⟨[5, 9], some "orig.dat", some "orig.dat"⟩ : SourceStream Nat)
    _ _ [0, 17] (by simp) rfl rfl rfl

end IndexedCorpusModel
